import Mathlib

/-!
Verification of the mission lifecycle / execution-queue core of
OPS-Agent-Desktop (a TypeScript Express + Playwright application).

The development shallowly embeds the relevant backend modules:

* `backend/src/missions/missionService.ts` — the in-memory `MissionService`
  (a `Map<string, Mission>` store with `createMission`, `getMission`,
  `addStep`, `updateStatus`, `setRCASummary`, `setRemediationProposal`).
* `backend/src/repositories/missionRepository.ts` — the Prisma-backed
  `MissionRepository.addStep`, which allocates `sequenceNumber`s.
* `backend/src/browser/browserAgent.ts` — `BrowserAgent.executeMission`
  and its six pipeline stages, embedded as a state-and-exception monad
  over the mission store; browser-side effects (page navigation, waits,
  screenshots, locator counts) are parameters of the run, given as an
  environment of `Except`-valued outcomes.
* `backend/src/queue/missionQueue.ts` — the BullMQ worker processor and
  `addMissionToQueue`; the BullMQ library itself is external to the
  repository, so its retry driver and `Queue.add` job-id deduplication
  are modelled separately from its documented semantics.
* `backend/src/api/routes.ts` — the `latestScreenshot` projection of the
  polling endpoint `GET /api/missions/:id/stream`.

JavaScript `Date` values and uuid generation are modelled by a `tick`
counter threaded through the stateful embedding; each fresh uuid/date
consumes one tick.  `Map` objects are modelled as insertion-ordered
association lists.
-/

namespace OpsAgent

/-- Mission lifecycle states, from `backend/src/types/mission.ts`
(`enum MissionStatus`). -/
inductive MissionStatus where
  | PENDING
  | RUNNING
  | COMPLETED
  | FAILED
  | AWAITING_APPROVAL
deriving DecidableEq, Repr

/-- Step categories, from `backend/src/types/mission.ts`
(`enum MissionStepType`). -/
inductive MissionStepType where
  | OBSERVATION
  | ACTION
  | RCA
  | REMEDIATION
deriving DecidableEq, Repr

/-- One mission step, from `interface MissionStep` in
`backend/src/types/mission.ts`.  `timestamp` is a tick (see module
doc); the opaque `metadata` record is never consulted by any modelled
operation and is omitted. -/
structure MissionStep where
  id : String
  timestamp : Nat
  type : MissionStepType
  message : String
  screenshotPath : Option String
deriving DecidableEq, Repr

/-- A mission record, from `interface Mission` in
`backend/src/types/mission.ts`. -/
structure Mission where
  id : String
  prompt : String
  status : MissionStatus
  createdAt : Nat
  updatedAt : Nat
  steps : List MissionStep
  rcaSummary : Option String
  remediationProposal : Option String
deriving DecidableEq, Repr

/-- The `MissionService`'s `Map<string, Mission>`, modelled as an
insertion-ordered association list. -/
def Store : Type := List (String × Mission)

/-- `Map.prototype.get`. -/
def mapGet : Store → String → Option Mission
  | [], _ => none
  | (k, v) :: rest, i => if k = i then some v else mapGet rest i

/-- `Map.prototype.set`: update in place when the key exists (JS maps
keep the original insertion position), append otherwise. -/
def mapSet : Store → String → Mission → Store
  | [], i, m => [(i, m)]
  | (k, v) :: rest, i, m =>
      if k = i then (i, m) :: rest else (k, v) :: mapSet rest i m

/-- `MissionService.createMission` (missionService.ts:25-37): builds a
PENDING mission with empty steps and stores it.  The uuid produced by
`uuidv4()` and the creation time are passed in as `newId` and `now`. -/
def createMission (s : Store) (newId : String) (now : Nat) (prompt : String) :
    Store × Mission :=
  let m : Mission :=
    { id := newId, prompt := prompt, status := MissionStatus.PENDING,
      createdAt := now, updatedAt := now, steps := [],
      rcaSummary := none, remediationProposal := none }
  (mapSet s newId m, m)

/-- `MissionService.getMission` (missionService.ts:42-44). -/
def getMission (s : Store) (i : String) : Option Mission :=
  mapGet s i

/-- `MissionService.addStep` (missionService.ts:49-72): throws
`Mission ${missionId} not found` for an unknown id, otherwise pushes a
new step and refreshes `updatedAt`.  No status check and no sequence
number are involved.  `stepId` stands for the `uuidv4()` call and `now`
for `new Date()`. -/
def addStep (s : Store) (missionId : String) (ty : MissionStepType)
    (message : String) (screenshotPath : Option String)
    (stepId : String) (now : Nat) : Except String Store :=
  match mapGet s missionId with
  | none => Except.error ("Mission " ++ missionId ++ " not found")
  | some m =>
      Except.ok (mapSet s missionId
        { m with
          steps := m.steps ++
            [{ id := stepId, timestamp := now, type := ty,
               message := message, screenshotPath := screenshotPath }],
          updatedAt := now })

/-- `MissionService.updateStatus` (missionService.ts:77-85): overwrites
the status unconditionally (there is no transition validation in the
source) and refreshes `updatedAt`. -/
def updateStatus (s : Store) (missionId : String) (status : MissionStatus)
    (now : Nat) : Except String Store :=
  match mapGet s missionId with
  | none => Except.error ("Mission " ++ missionId ++ " not found")
  | some m =>
      Except.ok (mapSet s missionId { m with status := status, updatedAt := now })

/-- `MissionService.setRCASummary` (missionService.ts:90-98). -/
def setRCASummary (s : Store) (missionId : String) (summary : String)
    (now : Nat) : Except String Store :=
  match mapGet s missionId with
  | none => Except.error ("Mission " ++ missionId ++ " not found")
  | some m =>
      Except.ok (mapSet s missionId
        { m with rcaSummary := some summary, updatedAt := now })

/-- `MissionService.setRemediationProposal` (missionService.ts:103-111). -/
def setRemediationProposal (s : Store) (missionId : String) (proposal : String)
    (now : Nat) : Except String Store :=
  match mapGet s missionId with
  | none => Except.error ("Mission " ++ missionId ++ " not found")
  | some m =>
      Except.ok (mapSet s missionId
        { m with remediationProposal := some proposal, updatedAt := now })

/-- The legal-transition table written down in the specification
(spec §3, invariant 3): PENDING→RUNNING,
RUNNING→{COMPLETED, FAILED, AWAITING_APPROVAL},
AWAITING_APPROVAL→{COMPLETED, FAILED}; no transition out of COMPLETED
or FAILED.  This follows the spec's words (not the source, which has no
such table) and exists to compare the spec against the code. -/
def specLegalTransition : MissionStatus → MissionStatus → Bool
  | MissionStatus.PENDING, MissionStatus.RUNNING => true
  | MissionStatus.RUNNING, MissionStatus.COMPLETED => true
  | MissionStatus.RUNNING, MissionStatus.FAILED => true
  | MissionStatus.RUNNING, MissionStatus.AWAITING_APPROVAL => true
  | MissionStatus.AWAITING_APPROVAL, MissionStatus.COMPLETED => true
  | MissionStatus.AWAITING_APPROVAL, MissionStatus.FAILED => true
  | _, _ => false

/-- JavaScript truthiness of an optional string, as used by
`step => step.screenshotPath` in the route's `.find` callback:
`undefined` and the empty string are falsy. -/
def jsTruthy : Option String → Bool
  | none => false
  | some t => t ≠ ""

/-- The `latestScreenshot` computation of
`GET /api/missions/:id/stream` (routes.ts):
`mission.steps.slice().reverse().find(step => step.screenshotPath)?.screenshotPath`. -/
def latestScreenshot? (steps : List MissionStep) : Option String :=
  (steps.reverse.find? fun st => jsTruthy st.screenshotPath).bind
    MissionStep.screenshotPath

/-- The read model as the spec words it: the `artifactRef` of the most
recent step that has one set, or absent.  Follows the spec's words, to
be compared with `latestScreenshot?` from the source. -/
def specLatestArtifactRef (steps : List MissionStep) : Option String :=
  (steps.reverse.find? fun st => st.screenshotPath.isSome).bind
    MissionStep.screenshotPath

/-! ### The Prisma-backed repository (`missionRepository.ts`)

`MissionRepository.addStep` allocates sequence numbers.  The
`missionStep` table is modelled as an insertion-ordered list of rows. -/

/-- A row of the `missionStep` table, restricted to the columns
`MissionRepository.addStep` reads or writes. -/
structure RepoStep where
  missionId : String
  sequenceNumber : Int
  type : MissionStepType
  message : String
  screenshotPath : Option String
deriving DecidableEq, Repr

/-- `prisma.missionStep.findFirst({where: {missionId}, orderBy:
{sequenceNumber: 'desc'}})` projected to its `sequenceNumber`: the
greatest sequence number among the mission's rows, or `none`. -/
def lastSeq? (tbl : List RepoStep) (mid : String) : Option Int :=
  ((tbl.filter fun r => r.missionId = mid).map
    RepoStep.sequenceNumber).max?

/-- `const sequenceNumber = (lastStep?.sequenceNumber || 0) + 1`
(missionRepository.ts:178).  For number-valued `sequenceNumber`,
`x || 0` equals `x` except on `NaN`, and equals `0` when the optional
chain yields `undefined`. -/
def nextSeq (tbl : List RepoStep) (mid : String) : Int :=
  (lastSeq? tbl mid).getD 0 + 1

/-- `MissionRepository.addStep` (missionRepository.ts:161-187): reads
the greatest existing sequence number for the mission, inserts a row
with that number plus one, and returns the created row. -/
def repoAddStep (tbl : List RepoStep) (mid : String) (ty : MissionStepType)
    (message : String) (screenshotPath : Option String) :
    List RepoStep × RepoStep :=
  let row : RepoStep :=
    { missionId := mid, sequenceNumber := nextSeq tbl mid, type := ty,
      message := message, screenshotPath := screenshotPath }
  (tbl ++ [row], row)

/-- The arguments of one `MissionRepository.addStep` call. -/
structure AddCall where
  missionId : String
  type : MissionStepType
  message : String
  screenshotPath : Option String

/-- Run a sequence of `MissionRepository.addStep` calls against an
initially empty `missionStep` table. -/
def runAddSteps (calls : List AddCall) : List RepoStep :=
  calls.foldl
    (fun tbl c =>
      (repoAddStep tbl c.missionId c.type c.message c.screenshotPath).1)
    []

/-- The sequence numbers of one mission's rows, in insertion order. -/
def seqsOf (tbl : List RepoStep) (mid : String) : List Int :=
  (tbl.filter fun r => r.missionId = mid).map RepoStep.sequenceNumber

/-- The gapless sequence `1, 2, …, n` as integers. -/
def seqRange (n : Nat) : List Int :=
  List.map (fun k : Nat => (k : Int)) (List.range' 1 n)

/-! ### The browser agent (`browserAgent.ts`)

`BrowserAgent.executeMission` is a stateful async method: it mutates the
mission store through the singleton `missionService` and awaits browser
operations that may reject.  It is embedded as a computation in a
state-and-exception monad: the state is the mission store plus a tick
counter standing for `Date.now()` / `uuidv4()`, and a thrown JS error is
an `Except.error` carrying its message.  Crucially, store mutations made
before a throw survive it (JS objects are mutated in place), so the
state is threaded through errors as well. -/

/-- Mutable world of a run: the `missionService` store plus the clock /
uuid tick. -/
structure SvcState where
  missions : Store
  tick : Nat

/-- The embedding monad: state plus JS exceptions, with the state
surviving a throw. -/
def M (α : Type) : Type :=
  SvcState → Except String α × SvcState

def M.pure (a : α) : M α := fun st => (Except.ok a, st)

def M.bind (x : M α) (f : α → M β) : M β := fun st =>
  match x st with
  | (Except.ok a, st₁) => f a st₁
  | (Except.error e, st₁) => (Except.error e, st₁)

instance : Monad M where
  pure := M.pure
  bind := M.bind

/-- An awaited external operation whose outcome (`resolve` or `reject`)
is fixed by the run's environment.  It does not touch the store. -/
def effR (e : Except String α) : M α := fun st => (e, st)

/-- `throw error` in JS. -/
def throwR (e : String) : M α := fun st => (Except.error e, st)

/-- JS `try { body } catch (error) { handler }`. -/
def tryCatchR (body : M α) (handler : String → M α) : M α := fun st =>
  match body st with
  | (Except.ok a, st₁) => (Except.ok a, st₁)
  | (Except.error e, st₁) => handler e st₁

/-- JS `try { body } finally { fin }`: the finaliser always runs, and an
error it throws supersedes the body's outcome. -/
def tryFinallyR (body : M α) (fin : M Unit) : M α := fun st =>
  match body st with
  | (Except.ok a, st₁) =>
      match fin st₁ with
      | (Except.ok _, st₂) => (Except.ok a, st₂)
      | (Except.error e, st₂) => (Except.error e, st₂)
  | (Except.error e, st₁) =>
      match fin st₁ with
      | (Except.ok _, st₂) => (Except.error e, st₂)
      | (Except.error e₂, st₂) => (Except.error e₂, st₂)

/-- Draw the next tick (one `Date.now()` / `uuidv4()` evaluation). -/
def nextTick : M Nat := fun st =>
  (Except.ok st.tick, { st with tick := st.tick + 1 })

/-- `missionService.addStep(...)` as seen from the agent: the uuid and
timestamp of the new step come from the current tick. -/
def addStepR (mid : String) (ty : MissionStepType) (msg : String)
    (shot : Option String) : M Unit := fun st =>
  match addStep st.missions mid ty msg shot ("uuid-" ++ toString st.tick)
      st.tick with
  | Except.ok ms => (Except.ok (), { missions := ms, tick := st.tick + 1 })
  | Except.error e => (Except.error e, st)

/-- `missionService.updateStatus(...)` as seen from the agent. -/
def updateStatusR (mid : String) (status : MissionStatus) : M Unit := fun st =>
  match updateStatus st.missions mid status st.tick with
  | Except.ok ms => (Except.ok (), { missions := ms, tick := st.tick + 1 })
  | Except.error e => (Except.error e, st)

/-- `missionService.setRCASummary(...)` as seen from the agent. -/
def setRCASummaryR (mid : String) (txt : String) : M Unit := fun st =>
  match setRCASummary st.missions mid txt st.tick with
  | Except.ok ms => (Except.ok (), { missions := ms, tick := st.tick + 1 })
  | Except.error e => (Except.error e, st)

/-- `missionService.setRemediationProposal(...)` as seen from the agent. -/
def setRemediationProposalR (mid : String) (txt : String) : M Unit := fun st =>
  match setRemediationProposal st.missions mid txt st.tick with
  | Except.ok ms => (Except.ok (), { missions := ms, tick := st.tick + 1 })
  | Except.error e => (Except.error e, st)

/-- Outcomes of the awaited browser-side operations of one
`executeMission` run, in source order.  `Except.ok` means the promise
resolves, `Except.error e` that it rejects with message `e`.  The two
locator `count()` calls resolve to a number that picks a branch. -/
structure BrowserEnv where
  init : Except String Unit
  gotoDash : Except String Unit
  waitDash : Except String Unit
  shotDash : Except String Unit
  waitAnalyze : Except String Unit
  logsCount : Except String Nat
  clickLogs : Except String Unit
  waitLogs : Except String Unit
  shotLogs : Except String Unit
  gotoAction : Except String Unit
  waitAction : Except String Unit
  btnCount : Except String Nat
  clickBtn : Except String Unit
  waitBtn : Except String Unit
  shotAction : Except String Unit
  close : Except String Unit

/-- `BrowserAgent.captureScreenshot` (browserAgent.ts): reads
`Date.now()`, takes the screenshot (which may reject), and returns the
filename `${missionId}_${label}_${timestamp}.png`. -/
def captureScreenshotR (shot : Except String Unit) (mid label : String) :
    M String := do
  let ts ← nextTick
  effR shot
  pure (mid ++ "_" ++ label ++ "_" ++ toString ts ++ ".png")

/-- `BrowserAgent.navigateToDashboard`. -/
def navigateToDashboardR (env : BrowserEnv) (mid : String) : M Unit := do
  addStepR mid MissionStepType.OBSERVATION "Opening Ops Dashboard..." none
  effR env.gotoDash
  effR env.waitDash
  let p ← captureScreenshotR env.shotDash mid "dashboard"
  addStepR mid MissionStepType.OBSERVATION
    "Dashboard loaded - analyzing current status" (some p)

/-- `BrowserAgent.analyzeDashboard`. -/
def analyzeDashboardR (env : BrowserEnv) (mid : String) : M Unit := do
  addStepR mid MissionStepType.OBSERVATION
    "Analyzing dashboard metrics and alerts..." none
  effR env.waitAnalyze
  addStepR mid MissionStepType.OBSERVATION
    "Detected: 500 errors on checkout service (15 errors/min)" none

/-- `BrowserAgent.navigateToLogs`. -/
def navigateToLogsR (env : BrowserEnv) (mid : String) : M Unit := do
  addStepR mid MissionStepType.OBSERVATION "Navigating to logs page..." none
  let n ← effR env.logsCount
  if n > 0 then do
    effR env.clickLogs
    effR env.waitLogs
  else
    pure ()
  let p ← captureScreenshotR env.shotLogs mid "logs"
  addStepR mid MissionStepType.OBSERVATION
    "Logs page loaded - reviewing error traces" (some p)

/-- The hard-coded RCA text from `BrowserAgent.performRCA`
(browserAgent.ts), after `.trim()`. -/
def mockRCASummary : String :=
  String.intercalate "\n"
    [ "**Root Cause Analysis Summary**"
    , ""
    , "**Primary Cause**: Database connection pool exhaustion on checkout-db-primary"
    , "**Confidence**: 87%"
    , ""
    , "**Causal Chain**:"
    , "1. Deployment of checkout-service v2.3.1 at 14:23 UTC"
    , "2. New code path introduced N+1 query pattern"
    , "3. Connection pool saturated within 5 minutes"
    , "4. Subsequent requests timing out after 30s"
    , "5. Circuit breaker opened, returning 500 errors"
    , ""
    , "**Supporting Evidence**:"
    , "- Correlation: 0.94 between deployment timestamp and error spike"
    , "- DB connection metrics: 100/100 connections in use"
    , "- Slow query log: 450% increase in SELECT queries to orders table" ]

/-- `BrowserAgent.performRCA`: appends the invocation step, sleeps
(`setTimeout` always resolves and touches nothing), stores the
hard-coded summary, appends the completion step.  The prompt argument is
unused by the source body. -/
def performRCAR (mid : String) : M Unit := do
  addStepR mid MissionStepType.RCA
    "Invoking AutoRCA-Core for graph-based root cause analysis..." none
  setRCASummaryR mid mockRCASummary
  addStepR mid MissionStepType.RCA
    "RCA complete - root cause identified: connection pool exhaustion" none

/-- The hard-coded remediation text from
`BrowserAgent.proposeRemediation`, after `.trim()`. -/
def mockRemediation : String :=
  String.intercalate "\n"
    [ "**Proposed Remediation**"
    , ""
    , "**Immediate Actions** (Auto-approved - Read-only):"
    , "1. ✓ Scale checkout-service replicas from 3 → 8"
    , "2. ✓ Increase DB connection pool max from 100 → 200"
    , ""
    , "**Intervention Actions** (Require Approval):"
    , "1. ⏳ Rollback checkout-service to v2.3.0"
    , "2. ⏳ Restart checkout-db-primary to clear connections"
    , ""
    , "**Status**: Awaiting approval for intervention actions via Secure-MCP-Gateway" ]

/-- `BrowserAgent.proposeRemediation`. -/
def proposeRemediationR (mid : String) : M Unit := do
  addStepR mid MissionStepType.REMEDIATION
    "Consulting Secure-MCP-Gateway for approved remediation actions..." none
  setRemediationProposalR mid mockRemediation
  addStepR mid MissionStepType.REMEDIATION
    "Remediation plan generated - awaiting gateway approval for write actions" none

/-- `BrowserAgent.executeApprovedAction`. -/
def executeApprovedActionR (env : BrowserEnv) (mid : String) : M Unit := do
  addStepR mid MissionStepType.ACTION
    "Gateway approval received (simulated) - executing restart action..." none
  effR env.gotoAction
  effR env.waitAction
  let n ← effR env.btnCount
  if n > 0 then do
    effR env.clickBtn
    effR env.waitBtn
    let p ← captureScreenshotR env.shotAction mid "action-complete"
    addStepR mid MissionStepType.ACTION
      "Service restart initiated successfully" (some p)
  else
    addStepR mid MissionStepType.ACTION
      "Action completed (UI interaction simulated)" none

/-- The body of the `try` block of `BrowserAgent.executeMission`
(browserAgent.ts:432-459): set RUNNING, run the six stages, set
COMPLETED, append the success observation. -/
def tryBodyR (env : BrowserEnv) (mid : String) : M Unit := do
  updateStatusR mid MissionStatus.RUNNING
  navigateToDashboardR env mid
  analyzeDashboardR env mid
  navigateToLogsR env mid
  performRCAR mid
  proposeRemediationR mid
  executeApprovedActionR env mid
  updateStatusR mid MissionStatus.COMPLETED
  addStepR mid MissionStepType.OBSERVATION
    "✅ Mission completed successfully" none

/-- The `catch` block of `BrowserAgent.executeMission`
(browserAgent.ts:460-466): set FAILED, append one failure step carrying
the error message, and do NOT rethrow. -/
def catchHandlerR (mid : String) (e : String) : M Unit := do
  updateStatusR mid MissionStatus.FAILED
  addStepR mid MissionStepType.OBSERVATION ("❌ Mission failed: " ++ e) none

/-- `BrowserAgent.executeMission` (browserAgent.ts:423-470):
`init`/`newPage` before the `try` (their rejections escape), then the
try/catch/finally around the pipeline.  The prompt is only forwarded to
`performRCA`, which ignores it. -/
def executeMissionR (env : BrowserEnv) (mid : String) (_prompt : String) :
    M Unit := do
  effR env.init
  tryFinallyR (tryCatchR (tryBodyR env mid) (catchHandlerR mid))
    (effR env.close)

/-! ### The mission queue (`missionQueue.ts`)

The worker processor is repository code; BullMQ itself is an external
dependency, so the pieces of its behaviour the claims depend on — the
attempts/exponential-backoff retry driver configured with
`attempts: 3, backoff: {type: 'exponential', delay: 2000}`, and
`Queue.add`'s deduplication on an explicit `jobId` — are modelled from
the library's documented semantics. -/

/-- One attempt's environment for the worker processor: the browser
environment of the `executeMission` call plus the outcomes of the two
`job.updateProgress` awaits. -/
structure WorkerEnv where
  browser : BrowserEnv
  progress1 : Except String Unit
  progress2 : Except String Unit

/-- The worker processor of `missionWorker` (missionQueue.ts:45-94):
update progress, run `executeMission`, update progress, resolve; on any
thrown error set the mission FAILED and rethrow so BullMQ marks the
attempt failed. -/
def workerRunR (env : WorkerEnv) (mid prompt : String) : M Unit :=
  tryCatchR
    (do
      effR env.progress1
      executeMissionR env.browser mid prompt
      effR env.progress2)
    (fun e => do
      updateStatusR mid MissionStatus.FAILED
      throwR e)

/-- The observable result of driving one job to settlement. -/
structure JobRun where
  attempts : Nat
  settledOk : Bool
  delays : List Nat
  finalState : SvcState

/-- BullMQ's retry driver for a job configured with `attempts`
(fuel) and exponential backoff with base delay 2000ms (modelled from
the library's documented semantics; the repository configures
`attempts: 3, backoff: {type: 'exponential', delay: 2000}`).  Each
attempt runs the worker processor; a resolved attempt settles the job
as completed, a rejected attempt is retried after `2000 * 2^k` ms while
attempts remain, and fails the job once they are exhausted. -/
def driveJob (env : WorkerEnv) (mid prompt : String) :
    Nat → Nat → SvcState → JobRun
  | 0, k, st => { attempts := k, settledOk := false, delays := [], finalState := st }
  | fuel + 1, k, st =>
      match workerRunR env mid prompt st with
      | (Except.ok _, st₁) =>
          { attempts := k + 1, settledOk := true, delays := [], finalState := st₁ }
      | (Except.error _, st₁) =>
          match fuel with
          | 0 =>
              { attempts := k + 1, settledOk := false, delays := [],
                finalState := st₁ }
          | Nat.succ _ =>
              let r := driveJob env mid prompt fuel (k + 1) st₁
              { r with delays := 2000 * 2 ^ k :: r.delays }

/-- A job record as far as `addMissionToQueue` is concerned. -/
structure QJob where
  jobId : String
  missionId : String
  prompt : String
deriving DecidableEq, Repr

/-- The queue's job set, keyed by `jobId`. -/
structure QueueState where
  jobs : List QJob
deriving DecidableEq, Repr

def emptyQueue : QueueState := { jobs := [] }

def hasJob (q : QueueState) (jid : String) : Bool :=
  q.jobs.any fun j => j.jobId = jid

/-- BullMQ `Queue.add` with an explicit `jobId` (modelled from the
library's documented semantics, since BullMQ is an external
dependency): when a job with that id already exists, the add is
silently ignored — no error is raised, the existing job is kept and its
id returned; otherwise the job is created. -/
def bullAdd (q : QueueState) (jid mid prompt : String) : QueueState × String :=
  if hasJob q jid then (q, jid)
  else ({ jobs := q.jobs ++ [{ jobId := jid, missionId := mid, prompt := prompt }] }, jid)

/-- `addMissionToQueue` (missionQueue.ts:115-134): calls `queue.add`
with `jobId: missionId` and returns the job.  The function body contains
no duplicate check and no throw of its own. -/
def addMissionToQueue (q : QueueState) (mid prompt : String) :
    QueueState × String :=
  bullAdd q mid mid prompt

/-- Number of queued jobs carrying a given job id. -/
def countJobs (q : QueueState) (jid : String) : Nat :=
  (q.jobs.filter fun j => j.jobId = jid).length

/-- Fold a list of `(missionId, prompt)` enqueue calls over the empty
queue. -/
def runAdds (calls : List (String × String)) : QueueState :=
  calls.foldl (fun q c => (addMissionToQueue q c.1 c.2).1) emptyQueue

/-! ### Concrete fixtures for counterexamples and witnesses -/

/-- A mission already in the terminal COMPLETED state. -/
def exMissionDone : Mission :=
  { id := "m", prompt := "p", status := MissionStatus.COMPLETED,
    createdAt := 0, updatedAt := 0, steps := [],
    rcaSummary := none, remediationProposal := none }

/-- A store holding only `exMissionDone`. -/
def exStoreDone : Store := [("m", exMissionDone)]

/-- A freshly created mission, as `createMission` leaves it. -/
def exMissionPending : Mission :=
  { id := "m", prompt := "p", status := MissionStatus.PENDING,
    createdAt := 0, updatedAt := 0, steps := [],
    rcaSummary := none, remediationProposal := none }

/-- A store holding only `exMissionPending`. -/
def exStorePending : Store := [("m", exMissionPending)]

/-- A run state over `exStorePending`. -/
def exState0 : SvcState := { missions := exStorePending, tick := 0 }

/-- A browser environment in which every awaited operation resolves;
the two locator counts resolve to `nLogs` and `nBtn`. -/
def okBrowserEnv (nLogs nBtn : Nat) : BrowserEnv :=
  { init := Except.ok (), gotoDash := Except.ok (), waitDash := Except.ok ()
  , shotDash := Except.ok (), waitAnalyze := Except.ok ()
  , logsCount := Except.ok nLogs, clickLogs := Except.ok ()
  , waitLogs := Except.ok (), shotLogs := Except.ok ()
  , gotoAction := Except.ok (), waitAction := Except.ok ()
  , btnCount := Except.ok nBtn, clickBtn := Except.ok ()
  , waitBtn := Except.ok (), shotAction := Except.ok ()
  , close := Except.ok () }

/-- A worker environment whose browser stage `page.goto` (first
pipeline stage) always rejects with message `emsg` — a transient,
retryable kind of error — while everything else resolves. -/
def failWorkerEnv (emsg : String) : WorkerEnv :=
  { browser := { okBrowserEnv 1 1 with gotoDash := Except.error emsg }
  , progress1 := Except.ok (), progress2 := Except.ok () }

/-- A worker environment in which everything resolves. -/
def okWorkerEnv (nLogs nBtn : Nat) : WorkerEnv :=
  { browser := okBrowserEnv nLogs nBtn
  , progress1 := Except.ok (), progress2 := Except.ok () }

/-- A queue already holding an unsettled job for mission `"m1"`. -/
def exQueue1 : QueueState :=
  { jobs := [{ jobId := "m1", missionId := "m1", prompt := "p" }] }

/-- A computation preserves the presence of mission `mid` in the store:
whatever it does and however it exits, a mission that was in the store
stays in it.  Used to show the `catch` block of `executeMission` cannot
itself throw for a stored mission. -/
def PreservesMission (mid : String) (x : M α) : Prop :=
  ∀ st : SvcState, (mapGet st.missions mid).isSome →
    (mapGet ((x st).2).missions mid).isSome

/-! ## Theorems

First the store-level lemmas shared by several claims, then one theorem
(plus witness / counterexample where required) per claim. -/

@[simp] theorem mapGet_mapSet_same (s : Store) (i : String) (m : Mission) :
    mapGet (mapSet s i m) i = some m := by
  induction s with
  | nil => simp [mapGet, mapSet]
  | cons kv rest ih =>
      obtain ⟨k, v⟩ := kv
      by_cases h : k = i <;> simp [mapGet, mapSet, h, ih]

@[simp] theorem mapSet_mapSet_same (s : Store) (i : String) (m₁ m₂ : Mission) :
    mapSet (mapSet s i m₁) i m₂ = mapSet s i m₂ := by
  induction s with
  | nil => simp [mapSet]
  | cons kv rest ih =>
      obtain ⟨k, v⟩ := kv
      by_cases h : k = i <;> simp [mapSet, h, ih]

theorem mapGet_mapSet_isSome (s : Store) (i j : String) (m : Mission)
    (h : (mapGet s j).isSome) : (mapGet (mapSet s i m) j).isSome := by
  induction s with
  | nil => simp [mapGet, mapSet] at h
  | cons kv rest ih =>
      obtain ⟨k, v⟩ := kv
      by_cases hk : k = i
      · subst hk
        by_cases hj : k = j <;> simp_all [mapGet, mapSet]
      · by_cases hj : k = j <;> simp_all [mapGet, mapSet]

@[simp] theorem M.bind_eq (x : M α) (f : α → M β) :
    x >>= f = M.bind x f := rfl

@[simp] theorem M.pure_eq (a : α) : (pure a : M α) = M.pure a := rfl

/-- C1 (counterexample).  The claim says `setStatus` validates against
the legal-transition table and, once a mission is COMPLETED, every
`setStatus` or `appendStep` call fails with `IllegalTransition` leaving
the mission unchanged.  On the concrete store holding one COMPLETED
mission, COMPLETED→RUNNING is illegal by the spec's own table, yet
`updateStatus` succeeds and rewrites the status, and `addStep` succeeds
and appends — so the claim is false. -/
theorem c1_counterexample :
    specLegalTransition MissionStatus.COMPLETED MissionStatus.RUNNING = false ∧
    updateStatus exStoreDone "m" MissionStatus.RUNNING 5 =
      Except.ok
        [("m", { exMissionDone with status := MissionStatus.RUNNING, updatedAt := 5 })] ∧
    addStep exStoreDone "m" MissionStepType.OBSERVATION "late step" none "u1" 6 =
      Except.ok
        [("m", { exMissionDone with
                  steps := [{ id := "u1", timestamp := 6,
                              type := MissionStepType.OBSERVATION,
                              message := "late step", screenshotPath := none }],
                  updatedAt := 6 })] := by
  refine ⟨rfl, ?_, ?_⟩ <;> rfl

/-- C1 (amended).  `MissionService.updateStatus` performs no transition
validation: for any existing mission it unconditionally overwrites the
status — whatever the requested transition, legal or not by the spec's
table — and `addStep` succeeds regardless of the current status
(including COMPLETED and FAILED).  Neither call can fail with
`IllegalTransition`; the only failure mode of either is an unknown
mission id. -/
theorem c1_amended_no_validation (s : Store) (mid : String) (m : Mission)
    (hm : mapGet s mid = some m) (target : MissionStatus) (now : Nat)
    (ty : MissionStepType) (msg : String) (shot : Option String)
    (sid : String) (now' : Nat) :
    updateStatus s mid target now =
      Except.ok (mapSet s mid { m with status := target, updatedAt := now }) ∧
    addStep s mid ty msg shot sid now' =
      Except.ok (mapSet s mid
        { m with
          steps := m.steps ++
            [{ id := sid, timestamp := now', type := ty, message := msg,
               screenshotPath := shot }],
          updatedAt := now' }) := by
  constructor <;> simp [updateStatus, addStep, hm]

/-- C1 (witness): the amended theorem applied to the COMPLETED fixture,
requesting the spec-illegal transition COMPLETED→AWAITING_APPROVAL. -/
theorem c1_amended_witness :
    updateStatus exStoreDone "m" MissionStatus.AWAITING_APPROVAL 7 =
      Except.ok (mapSet exStoreDone "m"
        { exMissionDone with
          status := MissionStatus.AWAITING_APPROVAL
          updatedAt := 7 }) ∧
    addStep exStoreDone "m" MissionStepType.ACTION "post-terminal" none "u2" 8 =
      Except.ok (mapSet exStoreDone "m"
        { exMissionDone with
          steps := exMissionDone.steps ++
            [{ id := "u2", timestamp := 8, type := MissionStepType.ACTION,
               message := "post-terminal", screenshotPath := none }],
          updatedAt := 8 }) :=
  c1_amended_no_validation exStoreDone "m" exMissionDone rfl
    MissionStatus.AWAITING_APPROVAL 7 MissionStepType.ACTION "post-terminal"
    none "u2" 8

/-- C7.  Every mutating store call (`addStep`, `updateStatus`,
`setRCASummary`, `setRemediationProposal`) refreshes the mission's
`updatedAt` to the time of the call, and `addStep` changes only the
steps list and `updatedAt` — the record updates on the right-hand sides
leave `id`, `prompt`, `status`, `createdAt`, `rcaSummary` and
`remediationProposal` untouched. -/
theorem c7_mutators_refresh_updatedAt (s : Store) (mid : String) (m : Mission)
    (hm : mapGet s mid = some m) (ty : MissionStepType) (msg : String)
    (shot : Option String) (sid : String) (now : Nat)
    (target : MissionStatus) (txt prop : String) :
    addStep s mid ty msg shot sid now =
      Except.ok (mapSet s mid
        { m with
          steps := m.steps ++
            [{ id := sid, timestamp := now, type := ty, message := msg,
               screenshotPath := shot }],
          updatedAt := now }) ∧
    updateStatus s mid target now =
      Except.ok (mapSet s mid { m with status := target, updatedAt := now }) ∧
    setRCASummary s mid txt now =
      Except.ok (mapSet s mid
        { m with rcaSummary := some txt, updatedAt := now }) ∧
    setRemediationProposal s mid prop now =
      Except.ok (mapSet s mid
        { m with remediationProposal := some prop, updatedAt := now }) := by
  refine ⟨?_, ?_, ?_, ?_⟩ <;>
    simp [addStep, updateStatus, setRCASummary, setRemediationProposal, hm]

/-- C7 (witness): the theorem applied to the pending fixture. -/
theorem c7_witness :
    addStep exStorePending "m" MissionStepType.OBSERVATION "msg" none "u3" 4 =
      Except.ok (mapSet exStorePending "m"
        { exMissionPending with
          steps := exMissionPending.steps ++
            [{ id := "u3", timestamp := 4, type := MissionStepType.OBSERVATION,
               message := "msg", screenshotPath := none }],
          updatedAt := 4 }) ∧
    updateStatus exStorePending "m" MissionStatus.RUNNING 4 =
      Except.ok (mapSet exStorePending "m"
        { exMissionPending with
          status := MissionStatus.RUNNING
          updatedAt := 4 }) ∧
    setRCASummary exStorePending "m" "rca" 4 =
      Except.ok (mapSet exStorePending "m"
        { exMissionPending with rcaSummary := some "rca", updatedAt := 4 }) ∧
    setRemediationProposal exStorePending "m" "fix" 4 =
      Except.ok (mapSet exStorePending "m"
        { exMissionPending with
          remediationProposal := some "fix"
          updatedAt := 4 }) :=
  c7_mutators_refresh_updatedAt exStorePending "m" exMissionPending rfl
    MissionStepType.OBSERVATION "msg" none "u3" 4 MissionStatus.RUNNING
    "rca" "fix"

/-- C8.  The store enforces no set-once semantics: two successive
`setRCASummary` calls both succeed and the second text wins, and
likewise for `setRemediationProposal`. -/
theorem c8_last_write_wins (s : Store) (mid : String) (m : Mission)
    (hm : mapGet s mid = some m) (t1 t2 p1 p2 : String) (n1 n2 n3 n4 : Nat) :
    ∃ s1 s2 s3 s4,
      setRCASummary s mid t1 n1 = Except.ok s1 ∧
      setRCASummary s1 mid t2 n2 = Except.ok s2 ∧
      (mapGet s2 mid).map Mission.rcaSummary = some (some t2) ∧
      setRemediationProposal s mid p1 n3 = Except.ok s3 ∧
      setRemediationProposal s3 mid p2 n4 = Except.ok s4 ∧
      (mapGet s4 mid).map Mission.remediationProposal = some (some p2) := by
  refine ⟨mapSet s mid { m with rcaSummary := some t1, updatedAt := n1 },
          mapSet s mid { m with rcaSummary := some t2, updatedAt := n2 },
          mapSet s mid { m with remediationProposal := some p1, updatedAt := n3 },
          mapSet s mid { m with remediationProposal := some p2, updatedAt := n4 },
          ?_, ?_, ?_, ?_, ?_, ?_⟩ <;>
    simp [setRCASummary, setRemediationProposal, hm]

/-- C8 (witness): the theorem applied to the pending fixture. -/
theorem c8_witness :
    ∃ s1 s2 s3 s4,
      setRCASummary exStorePending "m" "first" 1 = Except.ok s1 ∧
      setRCASummary s1 "m" "second" 2 = Except.ok s2 ∧
      (mapGet s2 "m").map Mission.rcaSummary = some (some "second") ∧
      setRemediationProposal exStorePending "m" "fix1" 3 = Except.ok s3 ∧
      setRemediationProposal s3 "m" "fix2" 4 = Except.ok s4 ∧
      (mapGet s4 "m").map Mission.remediationProposal = some (some "fix2") :=
  c8_last_write_wins exStorePending "m" exMissionPending rfl
    "first" "second" "fix1" "fix2" 1 2 3 4

/-- C9.  `createMission` returns a mission carrying the freshly
allocated id (an id not previously in the store), status PENDING, an
empty steps list, the given prompt unchanged, and absent
`rcaSummary`/`remediationProposal`; the created mission is retrievable
by `getMission` under that id. -/
theorem c9_create_mission (s : Store) (newId : String) (now : Nat)
    (prompt : String) (hfresh : mapGet s newId = none) :
    ((createMission s newId now prompt).2).id = newId ∧
    ((createMission s newId now prompt).2).status = MissionStatus.PENDING ∧
    ((createMission s newId now prompt).2).steps = [] ∧
    ((createMission s newId now prompt).2).prompt = prompt ∧
    ((createMission s newId now prompt).2).rcaSummary = none ∧
    ((createMission s newId now prompt).2).remediationProposal = none ∧
    getMission s ((createMission s newId now prompt).2).id = none ∧
    getMission (createMission s newId now prompt).1 newId =
      some (createMission s newId now prompt).2 := by
  simp [createMission, getMission, hfresh]

/-- C9 (witness): the theorem applied to the empty store. -/
theorem c9_witness :
    ((createMission [] "m9" 3 "diagnose").2).id = "m9" ∧
    ((createMission [] "m9" 3 "diagnose").2).status = MissionStatus.PENDING ∧
    ((createMission [] "m9" 3 "diagnose").2).steps = [] ∧
    ((createMission [] "m9" 3 "diagnose").2).prompt = "diagnose" ∧
    ((createMission [] "m9" 3 "diagnose").2).rcaSummary = none ∧
    ((createMission [] "m9" 3 "diagnose").2).remediationProposal = none ∧
    getMission [] ((createMission [] "m9" 3 "diagnose").2).id = none ∧
    getMission (createMission [] "m9" 3 "diagnose").1 "m9" =
      some (createMission [] "m9" 3 "diagnose").2 :=
  c9_create_mission [] "m9" 3 "diagnose" rfl

/-- Helper for C6: on a list none of whose members carries the empty
string as screenshot path, the route's truthiness test agrees with the
is-set test. -/
theorem find?_truthy_eq_isSome (l : List MissionStep)
    (h : ∀ st ∈ l, st.screenshotPath ≠ some "") :
    (l.find? fun st => jsTruthy st.screenshotPath) =
      (l.find? fun st => st.screenshotPath.isSome) := by
  induction l with
  | nil => rfl
  | cons a l ih =>
      have ha : jsTruthy a.screenshotPath = a.screenshotPath.isSome := by
        cases hsp : a.screenshotPath with
        | none => simp [jsTruthy]
        | some t =>
            have ht : t ≠ "" := by
              intro hteq
              exact h a (by simp) (by simp [hsp, hteq])
            simp [jsTruthy, ht]
      have hl : ∀ st ∈ l, st.screenshotPath ≠ some "" :=
        fun st hst => h st (by simp [hst])
      simp only [List.find?_cons, ha, ih hl]

/-- C6.  For a mission none of whose steps stores the empty string as a
screenshot path (the agent's `captureScreenshot` always produces
`…​.png` filenames, and no other code writes this field), the route's
`latestScreenshot` computation returns exactly the artifact reference
of the most recent step — last in step order — that has one set, and is
absent when no step has one. -/
theorem c6_latest_artifact (steps : List MissionStep)
    (h : ∀ st ∈ steps, st.screenshotPath ≠ some "") :
    latestScreenshot? steps = specLatestArtifactRef steps ∧
    ((∀ st ∈ steps, st.screenshotPath = none) →
      latestScreenshot? steps = none) := by
  have hrev : ∀ st ∈ steps.reverse, st.screenshotPath ≠ some "" := by
    intro st hst
    exact h st (List.mem_reverse.1 hst)
  constructor
  · unfold latestScreenshot? specLatestArtifactRef
    rw [find?_truthy_eq_isSome steps.reverse hrev]
  · intro hnone
    unfold latestScreenshot?
    have : (steps.reverse.find? fun st => jsTruthy st.screenshotPath) = none := by
      rw [List.find?_eq_none]
      intro st hst
      have := hnone st (List.mem_reverse.1 hst)
      simp [jsTruthy, this]
    simp [this]

/-- C6 (witness): the theorem applied to a concrete step list whose
last artifact-bearing step holds `"m_logs_7.png"`. -/
theorem c6_witness :
    latestScreenshot?
        [ { id := "a", timestamp := 1, type := MissionStepType.OBSERVATION,
            message := "x", screenshotPath := none }
        , { id := "b", timestamp := 2, type := MissionStepType.OBSERVATION,
            message := "y", screenshotPath := some "m_dashboard_2.png" }
        , { id := "c", timestamp := 3, type := MissionStepType.OBSERVATION,
            message := "z", screenshotPath := some "m_logs_7.png" }
        , { id := "d", timestamp := 4, type := MissionStepType.RCA,
            message := "w", screenshotPath := none } ] =
      specLatestArtifactRef
        [ { id := "a", timestamp := 1, type := MissionStepType.OBSERVATION,
            message := "x", screenshotPath := none }
        , { id := "b", timestamp := 2, type := MissionStepType.OBSERVATION,
            message := "y", screenshotPath := some "m_dashboard_2.png" }
        , { id := "c", timestamp := 3, type := MissionStepType.OBSERVATION,
            message := "z", screenshotPath := some "m_logs_7.png" }
        , { id := "d", timestamp := 4, type := MissionStepType.RCA,
            message := "w", screenshotPath := none } ] ∧
    latestScreenshot?
        [ { id := "a", timestamp := 1, type := MissionStepType.OBSERVATION,
            message := "x", screenshotPath := none }
        , { id := "b", timestamp := 2, type := MissionStepType.OBSERVATION,
            message := "y", screenshotPath := some "m_dashboard_2.png" }
        , { id := "c", timestamp := 3, type := MissionStepType.OBSERVATION,
            message := "z", screenshotPath := some "m_logs_7.png" }
        , { id := "d", timestamp := 4, type := MissionStepType.RCA,
            message := "w", screenshotPath := none } ] = some "m_logs_7.png" :=
  ⟨(c6_latest_artifact _ (by decide)).1, by decide⟩

/-- Helper for C2: the greatest element of a list with one appended. -/
theorem max?_concat (l : List Int) (a : Int) :
    (l ++ [a]).max? =
      some (match l.max? with | none => a | some b => max b a) := by
  cases l with
  | nil => simp [List.max?]
  | cons x xs => simp [List.max?, List.foldl_append]

/-- Helper for C2: appending `n + 1` to `1, …, n`. -/
theorem seqRange_succ (n : Nat) :
    seqRange (n + 1) = seqRange n ++ [(n : Int) + 1] := by
  unfold seqRange
  rw [List.range'_concat]
  simp [Int.add_comm]

/-- Helper for C2: the greatest element of `1, …, n`. -/
theorem max?_seqRange (n : Nat) :
    (seqRange n).max? = if n = 0 then none else some (n : Int) := by
  induction n with
  | zero => simp [seqRange, List.max?]
  | succ k ih =>
      rw [seqRange_succ, max?_concat, ih]
      by_cases hk : k = 0
      · simp [hk]
      · have hle : ((k : Nat) : Int) ≤ ((k : Nat) : Int) + 1 := by omega
        push_cast
        simp [hk, max_eq_right hle]

/-- Helper for C2: filtering a table with one appended row. -/
theorem seqsOf_append (tbl : List RepoStep) (row : RepoStep) (mid : String) :
    seqsOf (tbl ++ [row]) mid =
      seqsOf tbl mid ++
        (if row.missionId = mid then [row.sequenceNumber] else []) := by
  unfold seqsOf
  rw [List.filter_append]
  by_cases h : row.missionId = mid <;> simp [h]

/-- Helper for C2: the per-mission row count of a table with one
appended row. -/
theorem countRepo_append (tbl : List RepoStep) (row : RepoStep) (mid : String) :
    ((tbl ++ [row]).filter fun r => r.missionId = mid).length =
      ((tbl.filter fun r => r.missionId = mid).length +
        if row.missionId = mid then 1 else 0) := by
  rw [List.filter_append]
  by_cases h : row.missionId = mid <;> simp [h]

/-- Helper for C2: one `MissionRepository.addStep` call preserves the
seqs-are-`1..n` invariant. -/
theorem seqInv_step (tbl : List RepoStep)
    (hInv : ∀ mid, seqsOf tbl mid =
      seqRange ((tbl.filter fun r => r.missionId = mid).length))
    (c : AddCall) :
    ∀ mid,
      seqsOf (repoAddStep tbl c.missionId c.type c.message c.screenshotPath).1
          mid =
        seqRange
          ((((repoAddStep tbl c.missionId c.type c.message
              c.screenshotPath).1).filter fun r => r.missionId = mid).length) := by
  intro mid
  have hrow : (repoAddStep tbl c.missionId c.type c.message c.screenshotPath).1 =
      tbl ++
        [{ missionId := c.missionId,
           sequenceNumber := nextSeq tbl c.missionId, type := c.type,
           message := c.message, screenshotPath := c.screenshotPath }] := rfl
  rw [hrow, seqsOf_append, countRepo_append]
  by_cases h : c.missionId = mid
  · subst h
    have hnext : nextSeq tbl c.missionId =
        ((tbl.filter fun r => r.missionId = c.missionId).length : Int) + 1 := by
      unfold nextSeq lastSeq?
      have hseqs : (tbl.filter fun r => r.missionId = c.missionId).map
          RepoStep.sequenceNumber =
          seqRange ((tbl.filter fun r => r.missionId = c.missionId).length) :=
        hInv c.missionId
      rw [hseqs, max?_seqRange]
      by_cases hz : (tbl.filter fun r => r.missionId = c.missionId).length = 0 <;>
        simp [hz]
    simp only [if_true]
    rw [hInv c.missionId, hnext, seqRange_succ]
  · simp [h, hInv mid]

/-- Helper for C2: the invariant carried through the fold. -/
theorem seqInv_fold (calls : List AddCall) (tbl : List RepoStep)
    (hInv : ∀ mid, seqsOf tbl mid =
      seqRange ((tbl.filter fun r => r.missionId = mid).length)) :
    ∀ mid,
      seqsOf
          (calls.foldl
            (fun t c =>
              (repoAddStep t c.missionId c.type c.message c.screenshotPath).1)
            tbl) mid =
        seqRange
          (((calls.foldl
              (fun t c =>
                (repoAddStep t c.missionId c.type c.message c.screenshotPath).1)
              tbl).filter fun r => r.missionId = mid).length) := by
  induction calls generalizing tbl with
  | nil => exact hInv
  | cons c cs ih =>
      intro mid
      exact ih _ (seqInv_step tbl hInv c) mid

/-- Helper for C2: `1, …, n` is strictly increasing. -/
theorem pairwise_seqRange (n : Nat) :
    List.Pairwise (· < ·) (seqRange n) := by
  unfold seqRange
  rw [List.pairwise_map]
  refine (List.pairwise_lt_range' 1 n).imp ?_
  intro a b hab
  exact_mod_cast hab

/-- C2.  Starting from an empty step table, any sequence of
`MissionRepository.addStep` calls leaves every mission's sequence
numbers equal — in insertion order — to the gapless strictly increasing
sequence `1, 2, …, n` (where `n` is the number of appends for that
mission, across all attempts, never reset or reused), so in particular
any earlier-appended step has a strictly smaller `sequenceNumber` than
any later one. -/
theorem c2_sequence_gapless (calls : List AddCall) (mid : String) :
    seqsOf (runAddSteps calls) mid =
      seqRange
        (((runAddSteps calls).filter fun r => r.missionId = mid).length) ∧
    List.Pairwise (· < ·) (seqsOf (runAddSteps calls) mid) := by
  have hmain := seqInv_fold calls []
    (by intro mid; simp [seqsOf, seqRange]) mid
  have hrun : runAddSteps calls =
      calls.foldl
        (fun t c =>
          (repoAddStep t c.missionId c.type c.message c.screenshotPath).1)
        [] := rfl
  rw [hrun]
  refine ⟨hmain, ?_⟩
  rw [hmain]
  exact pairwise_seqRange _

/-! ### Evaluation lemmas for the runner primitives -/

theorem addStepR_run (st : SvcState) (m : Mission) (mid : String)
    (ty : MissionStepType) (msg : String) (shot : Option String)
    (hm : mapGet st.missions mid = some m) :
    addStepR mid ty msg shot st =
      (Except.ok (),
        ⟨mapSet st.missions mid
          { m with
            steps := m.steps ++
              [{ id := "uuid-" ++ toString st.tick, timestamp := st.tick,
                 type := ty, message := msg, screenshotPath := shot }],
            updatedAt := st.tick },
         st.tick + 1⟩) := by
  simp [addStepR, addStep, hm]

theorem updateStatusR_run (st : SvcState) (m : Mission) (mid : String)
    (target : MissionStatus) (hm : mapGet st.missions mid = some m) :
    updateStatusR mid target st =
      (Except.ok (),
        ⟨mapSet st.missions mid
          { m with status := target, updatedAt := st.tick },
         st.tick + 1⟩) := by
  simp [updateStatusR, updateStatus, hm]

theorem setRCASummaryR_run (st : SvcState) (m : Mission) (mid txt : String)
    (hm : mapGet st.missions mid = some m) :
    setRCASummaryR mid txt st =
      (Except.ok (),
        ⟨mapSet st.missions mid
          { m with rcaSummary := some txt, updatedAt := st.tick },
         st.tick + 1⟩) := by
  simp [setRCASummaryR, setRCASummary, hm]

theorem setRemediationProposalR_run (st : SvcState) (m : Mission)
    (mid txt : String) (hm : mapGet st.missions mid = some m) :
    setRemediationProposalR mid txt st =
      (Except.ok (),
        ⟨mapSet st.missions mid
          { m with remediationProposal := some txt, updatedAt := st.tick },
         st.tick + 1⟩) := by
  simp [setRemediationProposalR, setRemediationProposal, hm]

@[simp] theorem effR_run (e : Except String α) (st : SvcState) :
    effR e st = (e, st) := rfl

@[simp] theorem pure_run (a : α) (st : SvcState) :
    (pure a : M α) st = (Except.ok a, st) := rfl

@[simp] theorem nextTick_run (st : SvcState) :
    nextTick st = (Except.ok st.tick, { st with tick := st.tick + 1 }) := rfl

theorem M.bind_run_ok {x : M α} {st st₁ : SvcState} {a : α}
    (h : x st = (Except.ok a, st₁)) (f : α → M β) :
    M.bind x f st = f a st₁ := by
  simp [M.bind, h]

theorem M.bind_run_error {x : M α} {st st₁ : SvcState} {e : String}
    (h : x st = (Except.error e, st₁)) (f : α → M β) :
    M.bind x f st = (Except.error e, st₁) := by
  simp [M.bind, h]

/-! ### Mission presence is preserved by every runner computation -/

theorem pres_pure (mid : String) (a : α) :
    PreservesMission mid (M.pure a) := fun _ h => h

theorem pres_effR (mid : String) (e : Except String α) :
    PreservesMission mid (effR e) := fun _ h => h

theorem pres_throwR (mid e : String) :
    PreservesMission mid (throwR e : M α) := fun _ h => h

theorem pres_bind {mid : String} {x : M α} {f : α → M β}
    (hx : PreservesMission mid x) (hf : ∀ a, PreservesMission mid (f a)) :
    PreservesMission mid (M.bind x f) := by
  intro st h
  unfold M.bind
  cases hxs : x st with
  | mk r st₁ =>
      have h₁ : (mapGet st₁.missions mid).isSome := by
        have := hx st h
        rw [hxs] at this
        exact this
      cases r with
      | ok a => exact hf a st₁ h₁
      | error e => exact h₁

theorem pres_tryCatchR {mid : String} {x : M α} {h : String → M α}
    (hx : PreservesMission mid x) (hh : ∀ e, PreservesMission mid (h e)) :
    PreservesMission mid (tryCatchR x h) := by
  intro st hs
  unfold tryCatchR
  cases hxs : x st with
  | mk r st₁ =>
      have h₁ : (mapGet st₁.missions mid).isSome := by
        have := hx st hs
        rw [hxs] at this
        exact this
      cases r with
      | ok a => exact h₁
      | error e => exact hh e st₁ h₁

theorem tryFinallyR_snd (x : M α) (fin : M Unit) (st : SvcState) :
    ((tryFinallyR x fin) st).2 = (fin (x st).2).2 := by
  unfold tryFinallyR
  rcases x st with ⟨r, st₁⟩
  rcases hfs : fin st₁ with ⟨rf, st₂⟩
  cases r <;> cases rf <;> simp [hfs]

theorem pres_tryFinallyR {mid : String} {x : M α} {fin : M Unit}
    (hx : PreservesMission mid x) (hfin : PreservesMission mid fin) :
    PreservesMission mid (tryFinallyR x fin) := by
  intro st hs
  rw [tryFinallyR_snd]
  exact hfin _ (hx st hs)

theorem pres_addStepR (mid mid' : String) (ty : MissionStepType)
    (msg : String) (shot : Option String) :
    PreservesMission mid (addStepR mid' ty msg shot) := by
  intro st h
  unfold addStepR addStep
  cases hg : mapGet st.missions mid' with
  | none => exact h
  | some m => exact mapGet_mapSet_isSome _ _ _ _ h

theorem pres_updateStatusR (mid mid' : String) (target : MissionStatus) :
    PreservesMission mid (updateStatusR mid' target) := by
  intro st h
  unfold updateStatusR updateStatus
  cases hg : mapGet st.missions mid' with
  | none => exact h
  | some m => exact mapGet_mapSet_isSome _ _ _ _ h

theorem pres_setRCASummaryR (mid mid' txt : String) :
    PreservesMission mid (setRCASummaryR mid' txt) := by
  intro st h
  unfold setRCASummaryR setRCASummary
  cases hg : mapGet st.missions mid' with
  | none => exact h
  | some m => exact mapGet_mapSet_isSome _ _ _ _ h

theorem pres_setRemediationProposalR (mid mid' txt : String) :
    PreservesMission mid (setRemediationProposalR mid' txt) := by
  intro st h
  unfold setRemediationProposalR setRemediationProposal
  cases hg : mapGet st.missions mid' with
  | none => exact h
  | some m => exact mapGet_mapSet_isSome _ _ _ _ h

theorem pres_nextTick (mid : String) :
    PreservesMission mid nextTick := fun _ h => h

theorem pres_ite {mid : String} (c : Prop) [Decidable c] {x y : M α}
    (hx : PreservesMission mid x) (hy : PreservesMission mid y) :
    PreservesMission mid (if c then x else y) := by
  by_cases h : c
  · simpa [h] using hx
  · simpa [h] using hy

theorem pres_captureScreenshotR (mid : String) (shot : Except String Unit)
    (mid' label : String) :
    PreservesMission mid (captureScreenshotR shot mid' label) := by
  unfold captureScreenshotR
  simp only [M.bind_eq, M.pure_eq]
  exact pres_bind (pres_nextTick mid) fun _ =>
    pres_bind (pres_effR mid shot) fun _ => pres_pure mid _

theorem pres_navigateToDashboardR (mid : String) (env : BrowserEnv)
    (mid' : String) :
    PreservesMission mid (navigateToDashboardR env mid') := by
  unfold navigateToDashboardR
  simp only [M.bind_eq, M.pure_eq]
  exact pres_bind (pres_addStepR _ _ _ _ _) fun _ =>
    pres_bind (pres_effR _ _) fun _ =>
    pres_bind (pres_effR _ _) fun _ =>
    pres_bind (pres_captureScreenshotR _ _ _ _) fun _ =>
    pres_addStepR _ _ _ _ _

theorem pres_analyzeDashboardR (mid : String) (env : BrowserEnv)
    (mid' : String) :
    PreservesMission mid (analyzeDashboardR env mid') := by
  unfold analyzeDashboardR
  simp only [M.bind_eq, M.pure_eq]
  exact pres_bind (pres_addStepR _ _ _ _ _) fun _ =>
    pres_bind (pres_effR _ _) fun _ =>
    pres_addStepR _ _ _ _ _

theorem pres_navigateToLogsR (mid : String) (env : BrowserEnv)
    (mid' : String) :
    PreservesMission mid (navigateToLogsR env mid') := by
  unfold navigateToLogsR
  simp only [M.bind_eq, M.pure_eq]
  exact pres_bind (pres_addStepR _ _ _ _ _) fun _ =>
    pres_bind (pres_effR _ _) fun n =>
    pres_ite _
      (pres_bind (pres_effR _ _) fun _ =>
        pres_bind (pres_effR _ _) fun _ =>
        pres_bind (pres_captureScreenshotR _ _ _ _) fun _ =>
        pres_addStepR _ _ _ _ _)
      (pres_bind (pres_pure _ _) fun _ =>
        pres_bind (pres_captureScreenshotR _ _ _ _) fun _ =>
        pres_addStepR _ _ _ _ _)

theorem pres_performRCAR (mid mid' : String) :
    PreservesMission mid (performRCAR mid') := by
  unfold performRCAR
  simp only [M.bind_eq, M.pure_eq]
  exact pres_bind (pres_addStepR _ _ _ _ _) fun _ =>
    pres_bind (pres_setRCASummaryR _ _ _) fun _ =>
    pres_addStepR _ _ _ _ _

theorem pres_proposeRemediationR (mid mid' : String) :
    PreservesMission mid (proposeRemediationR mid') := by
  unfold proposeRemediationR
  simp only [M.bind_eq, M.pure_eq]
  exact pres_bind (pres_addStepR _ _ _ _ _) fun _ =>
    pres_bind (pres_setRemediationProposalR _ _ _) fun _ =>
    pres_addStepR _ _ _ _ _

theorem pres_executeApprovedActionR (mid : String) (env : BrowserEnv)
    (mid' : String) :
    PreservesMission mid (executeApprovedActionR env mid') := by
  unfold executeApprovedActionR
  simp only [M.bind_eq, M.pure_eq]
  exact pres_bind (pres_addStepR _ _ _ _ _) fun _ =>
    pres_bind (pres_effR _ _) fun _ =>
    pres_bind (pres_effR _ _) fun _ =>
    pres_bind (pres_effR _ _) fun n =>
    pres_ite _
      (pres_bind (pres_effR _ _) fun _ =>
        pres_bind (pres_effR _ _) fun _ =>
        pres_bind (pres_captureScreenshotR _ _ _ _) fun _ =>
        pres_addStepR _ _ _ _ _)
      (pres_addStepR _ _ _ _ _)

theorem pres_tryBodyR (mid : String) (env : BrowserEnv) (mid' : String) :
    PreservesMission mid (tryBodyR env mid') := by
  unfold tryBodyR
  simp only [M.bind_eq, M.pure_eq]
  exact pres_bind (pres_updateStatusR _ _ _) fun _ =>
    pres_bind (pres_navigateToDashboardR _ _ _) fun _ =>
    pres_bind (pres_analyzeDashboardR _ _ _) fun _ =>
    pres_bind (pres_navigateToLogsR _ _ _) fun _ =>
    pres_bind (pres_performRCAR _ _) fun _ =>
    pres_bind (pres_proposeRemediationR _ _) fun _ =>
    pres_bind (pres_executeApprovedActionR _ _ _) fun _ =>
    pres_bind (pres_updateStatusR _ _ _) fun _ =>
    pres_addStepR _ _ _ _ _

/-- Evaluating the `catch` block of `executeMission` on a state whose
store still holds the mission: it sets FAILED, appends exactly one
failure step carrying the error message, and succeeds. -/
theorem catchHandlerR_run (mid e : String) (s₁ : SvcState) (m₁ : Mission)
    (hm₁ : mapGet s₁.missions mid = some m₁) :
    catchHandlerR mid e s₁ =
      (Except.ok (),
        ⟨mapSet s₁.missions mid
          { m₁ with
            status := MissionStatus.FAILED
            updatedAt := s₁.tick + 1
            steps := m₁.steps ++
              [{ id := "uuid-" ++ toString (s₁.tick + 1),
                 timestamp := s₁.tick + 1,
                 type := MissionStepType.OBSERVATION,
                 message := "❌ Mission failed: " ++ e,
                 screenshotPath := none }] },
         s₁.tick + 2⟩) := by
  unfold catchHandlerR
  simp only [M.bind_eq]
  rw [M.bind_run_ok (updateStatusR_run s₁ m₁ mid MissionStatus.FAILED hm₁)]
  rw [addStepR_run _
      { m₁ with
        status := MissionStatus.FAILED
        updatedAt := s₁.tick }
      mid MissionStepType.OBSERVATION ("❌ Mission failed: " ++ e) none
      (by simp)]
  simp

/-- The `try`/`catch` around the pipeline settles without an exception
whenever the mission is in the store. -/
theorem tryCatch_body_ok (env : BrowserEnv) (mid : String) (s : SvcState)
    (h : (mapGet s.missions mid).isSome) :
    (tryCatchR (tryBodyR env mid) (catchHandlerR mid) s).1 = Except.ok () := by
  unfold tryCatchR
  rcases hb : tryBodyR env mid s with ⟨r, s₁⟩
  have h₁ : (mapGet s₁.missions mid).isSome := by
    have hp := pres_tryBodyR mid env mid s h
    rw [hb] at hp
    exact hp
  cases r with
  | ok a => rfl
  | error e =>
      obtain ⟨m₁, hm₁⟩ := Option.isSome_iff_exists.mp h₁
      dsimp only
      rw [catchHandlerR_run mid e s₁ m₁ hm₁]

/-- `executeMission`'s promise resolves whenever `init`/`newPage` and
`page.close` resolve and the mission is stored, regardless of what the
pipeline stages do. -/
theorem executeMissionR_resolves (env : BrowserEnv) (s : SvcState)
    (mid prompt : String) (hinit : env.init = Except.ok ())
    (hclose : env.close = Except.ok ())
    (h : (mapGet s.missions mid).isSome) :
    (executeMissionR env mid prompt s).1 = Except.ok () := by
  unfold executeMissionR
  simp only [M.bind_eq]
  rw [M.bind_run_ok (show effR env.init s = (Except.ok (), s) by
    simp [hinit]) _]
  unfold tryFinallyR
  rcases hb : tryCatchR (tryBodyR env mid) (catchHandlerR mid) s with ⟨r, s₁⟩
  have hok := tryCatch_body_ok env mid s h
  rw [hb] at hok
  cases r with
  | ok a => simp [hclose]
  | error e => simp at hok

/-- C10.  `executeMission` never rejects because of a pipeline stage
error: provided the pre-`try` browser acquisition and the `finally`
`page.close()` resolve and the mission exists, the promise resolves
normally for every assignment of stage outcomes (first conjunct); and
whenever the `try` body throws, the `catch` block converts the error
into `updateStatus(FAILED)` plus exactly one appended failure step and
does not rethrow (second conjunct: the run's full result is the state
the body left behind, with FAILED and the single failure step written
into it, returned under `Except.ok`).  The queue worker therefore
cannot observe the error, nor distinguish transient from fatal
failures. -/
theorem c10_stage_errors_contained (env : BrowserEnv) (s : SvcState)
    (mid prompt : String) (m : Mission)
    (hinit : env.init = Except.ok ()) (hclose : env.close = Except.ok ())
    (hm : mapGet s.missions mid = some m) :
    (executeMissionR env mid prompt s).1 = Except.ok () ∧
    ∀ e s₁ m₁, tryBodyR env mid s = (Except.error e, s₁) →
      mapGet s₁.missions mid = some m₁ →
      executeMissionR env mid prompt s =
        (Except.ok (),
          ⟨mapSet s₁.missions mid
            { m₁ with
              status := MissionStatus.FAILED
              updatedAt := s₁.tick + 1
              steps := m₁.steps ++
                [{ id := "uuid-" ++ toString (s₁.tick + 1),
                   timestamp := s₁.tick + 1,
                   type := MissionStepType.OBSERVATION,
                   message := "❌ Mission failed: " ++ e,
                   screenshotPath := none }] },
           s₁.tick + 2⟩) := by
  constructor
  · exact executeMissionR_resolves env s mid prompt hinit hclose (by simp [hm])
  · intro e s₁ m₁ hbody hm₁
    unfold executeMissionR
    simp only [M.bind_eq]
    rw [M.bind_run_ok (show effR env.init s = (Except.ok (), s) by
      simp [hinit]) _]
    unfold tryFinallyR tryCatchR
    rw [hbody]
    dsimp only
    rw [catchHandlerR_run mid e s₁ m₁ hm₁]
    simp [hclose]

/-- C10 (witness): the theorem applied to the pending fixture, once
with every stage resolving and once with `page.goto` rejecting. -/
theorem c10_witness :
    (executeMissionR (okBrowserEnv 1 1) "m" "p" exState0).1 =
      Except.ok () ∧
    (executeMissionR
        { okBrowserEnv 1 1 with gotoDash := Except.error "net down" }
        "m" "p" exState0).1 = Except.ok () :=
  ⟨(c10_stage_errors_contained (okBrowserEnv 1 1) exState0 "m" "p"
      exMissionPending rfl rfl rfl).1,
   (c10_stage_errors_contained
      { okBrowserEnv 1 1 with gotoDash := Except.error "net down" }
      exState0 "m" "p" exMissionPending rfl rfl rfl).1⟩

/-- Evaluating one worker attempt when `page.goto` always rejects with
`emsg`: `executeMission` swallows the error — recording RUNNING, the
first observation step, then FAILED plus the failure step — and
resolves, so the worker records a SUCCESSFUL attempt. -/
theorem workerRunR_fail_run (emsg mid prompt : String) (s : SvcState)
    (m : Mission) (hm : mapGet s.missions mid = some m) :
    workerRunR (failWorkerEnv emsg) mid prompt s =
      (Except.ok (),
        ⟨mapSet s.missions mid
          { m with
            status := MissionStatus.FAILED
            updatedAt := s.tick + 1 + 1 + 1
            steps := m.steps ++
              [{ id := "uuid-" ++ toString (s.tick + 1),
                 timestamp := s.tick + 1,
                 type := MissionStepType.OBSERVATION,
                 message := "Opening Ops Dashboard...",
                 screenshotPath := none },
               { id := "uuid-" ++ toString (s.tick + 1 + 1 + 1),
                 timestamp := s.tick + 1 + 1 + 1,
                 type := MissionStepType.OBSERVATION,
                 message := "❌ Mission failed: " ++ emsg,
                 screenshotPath := none }] },
         s.tick + 1 + 1 + 1 + 1⟩) := by
  simp only [workerRunR, executeMissionR, tryBodyR, navigateToDashboardR,
    catchHandlerR, tryCatchR, tryFinallyR, failWorkerEnv, okBrowserEnv,
    M.bind_eq, M.bind, M.pure_eq, M.pure, effR_run, nextTick_run,
    updateStatusR, addStepR, updateStatus, addStep, hm, mapGet_mapSet_same,
    mapSet_mapSet_same]
  simp

/-- One retry-driver step on an attempt whose processor resolves: the
job settles as completed with no further attempts and no delays. -/
theorem driveJob_ok_step (env : WorkerEnv) (mid prompt : String)
    (fuel k : Nat) (st st₁ : SvcState)
    (h : workerRunR env mid prompt st = (Except.ok (), st₁)) :
    driveJob env mid prompt (fuel + 1) k st =
      { attempts := k + 1, settledOk := true, delays := [],
        finalState := st₁ } := by
  unfold driveJob
  rw [h]

/-- C3 (counterexample).  The claim says a pipeline that always fails
transiently causes exactly `maxAttempts` (3) total attempts with
backoff delays before the job is marked FAILED, the mission reaching
FAILED only once retries are exhausted.  On the concrete pending
mission with `page.goto` always rejecting, the driver performs exactly
1 attempt (≠ 3), with no delays, the job settles as COMPLETED (not
FAILED), and the mission is already FAILED after that first attempt. -/
theorem c3_counterexample :
    (driveJob (failWorkerEnv "connection reset") "m" "p" 3 0
        exState0).attempts = 1 ∧
    (1 : Nat) ≠ 3 ∧
    (driveJob (failWorkerEnv "connection reset") "m" "p" 3 0
        exState0).settledOk = true ∧
    (driveJob (failWorkerEnv "connection reset") "m" "p" 3 0
        exState0).delays = [] ∧
    ((mapGet (driveJob (failWorkerEnv "connection reset") "m" "p" 3 0
        exState0).finalState.missions "m").map Mission.status) =
      some MissionStatus.FAILED :=
  ⟨rfl, by decide, rfl, rfl, rfl⟩

/-- C3 (amended).  For a mission whose pipeline always fails
transiently (here: `page.goto` always rejects), only ONE execution
attempt occurs, with no backoff delays: `executeMission` catches the
stage error and sets the mission FAILED during that first attempt while
resolving normally, so the worker reports success and BullMQ settles
the job as COMPLETED; its 3-attempt exponential-backoff retry
configuration is never exercised by stage errors. -/
theorem c3_amended_single_attempt (s : SvcState) (mid prompt emsg : String)
    (m : Mission) (hm : mapGet s.missions mid = some m) :
    (driveJob (failWorkerEnv emsg) mid prompt 3 0 s).attempts = 1 ∧
    (driveJob (failWorkerEnv emsg) mid prompt 3 0 s).settledOk = true ∧
    (driveJob (failWorkerEnv emsg) mid prompt 3 0 s).delays = [] ∧
    ((mapGet ((driveJob (failWorkerEnv emsg) mid prompt 3 0
        s).finalState).missions mid).map Mission.status) =
      some MissionStatus.FAILED := by
  have hrun := workerRunR_fail_run emsg mid prompt s m hm
  have hdrive := driveJob_ok_step (failWorkerEnv emsg) mid prompt 2 0 s _ hrun
  rw [hdrive]
  refine ⟨rfl, rfl, rfl, ?_⟩
  simp

/-- C3 (witness): the amended theorem applied to the pending fixture. -/
theorem c3_amended_witness :
    (driveJob (failWorkerEnv "boom") "m" "p" 3 0 exState0).attempts = 1 ∧
    (driveJob (failWorkerEnv "boom") "m" "p" 3 0 exState0).settledOk = true ∧
    (driveJob (failWorkerEnv "boom") "m" "p" 3 0 exState0).delays = [] ∧
    ((mapGet ((driveJob (failWorkerEnv "boom") "m" "p" 3 0
        exState0).finalState).missions "m").map Mission.status) =
      some MissionStatus.FAILED :=
  c3_amended_single_attempt exState0 "m" "p" "boom" exMissionPending rfl

/-- Helper for C5: counting after appending one job. -/
theorem countJobs_append (jobs : List QJob) (j : QJob) (jid : String) :
    ((jobs ++ [j]).filter fun x => x.jobId = jid).length =
      (jobs.filter fun x => x.jobId = jid).length +
        if j.jobId = jid then 1 else 0 := by
  rw [List.filter_append]
  by_cases h : j.jobId = jid <;> simp [h]

/-- Helper for C5: a job id that `hasJob` does not find occurs zero
times. -/
theorem filter_len_zero_of_any_false (l : List QJob) (jid : String)
    (h : l.any (fun j => j.jobId = jid) = false) :
    (l.filter fun x => x.jobId = jid).length = 0 := by
  induction l with
  | nil => rfl
  | cons a t ih =>
      simp only [List.any_cons, Bool.or_eq_false_iff] at h
      obtain ⟨h1, h2⟩ := h
      have h1' : ¬(a.jobId = jid) := by simpa using h1
      simp only [List.filter_cons, h1']
      simpa using ih h2

theorem countJobs_of_not_hasJob (q : QueueState) (jid : String)
    (h : hasJob q jid = false) : countJobs q jid = 0 :=
  filter_len_zero_of_any_false q.jobs jid (by simpa [hasJob] using h)

/-- Helper for C5: one enqueue call keeps at most one job per job id. -/
theorem countJobs_add_le (q : QueueState) (mid' prompt jid : String)
    (h : countJobs q jid ≤ 1) :
    countJobs (addMissionToQueue q mid' prompt).1 jid ≤ 1 := by
  unfold addMissionToQueue bullAdd
  by_cases hj : hasJob q mid' = true
  · simp [hj, h]
  · have hb : hasJob q mid' = false := by
      cases hhb : hasJob q mid'
      · rfl
      · exact absurd hhb hj
    simp only [hb, Bool.false_eq_true, if_false]
    show countJobs { jobs := q.jobs ++ [_] } jid ≤ 1
    unfold countJobs
    rw [countJobs_append]
    by_cases hmid : mid' = jid
    · subst hmid
      have h0 : countJobs q mid' = 0 := countJobs_of_not_hasJob q mid' hb
      unfold countJobs at h0
      simp [h0]
    · simp only [hmid, if_false]
      simpa [countJobs] using h

/-- C5 (counterexample).  The claim says enqueueing the same mission id
a second time while its job is unsettled raises `DuplicateJob`.  On the
concrete double enqueue of "m1", the second call returns normally (the
embedded `addMissionToQueue`, like the source, has no failure path at
all), does not replace or duplicate the existing job, and the queue
still holds exactly that one job. -/
theorem c5_counterexample :
    addMissionToQueue (addMissionToQueue emptyQueue "m1" "diagnose").1
        "m1" "diagnose" =
      ((addMissionToQueue emptyQueue "m1" "diagnose").1, "m1") ∧
    ((addMissionToQueue emptyQueue "m1" "diagnose").1).jobs =
      [{ jobId := "m1", missionId := "m1", prompt := "diagnose" }] := by
  constructor <;> rfl

/-- C5 (amended).  Re-enqueueing a mission id with an unsettled job does
NOT raise: `addMissionToQueue` contains no duplicate check and no throw,
and BullMQ's `Queue.add` with `jobId: missionId` silently ignores the
duplicate add, keeping (not replacing) the existing job and returning
its id.  The surviving half of the claim holds: at most one unsettled
job per mission id ever exists, enforced by the job-id keying. -/
theorem c5_amended_dedup (q : QueueState) (mid prompt : String)
    (h : hasJob q mid = true) :
    addMissionToQueue q mid prompt = (q, mid) ∧
    ∀ calls : List (String × String), countJobs (runAdds calls) mid ≤ 1 := by
  constructor
  · simp [addMissionToQueue, bullAdd, h]
  · intro calls
    suffices hgen : ∀ q₀ : QueueState, countJobs q₀ mid ≤ 1 →
        countJobs
          (calls.foldl (fun acc c => (addMissionToQueue acc c.1 c.2).1) q₀)
          mid ≤ 1 by
      exact hgen emptyQueue (by simp [emptyQueue, countJobs])
    induction calls with
    | nil => intro q₀ h₀; exact h₀
    | cons c cs ih =>
        intro q₀ h₀
        exact ih _ (countJobs_add_le q₀ c.1 c.2 mid h₀)

/-- C5 (witness): the amended theorem applied to a queue already
holding the "m1" job, plus the invariant evaluated on a concrete call
list that re-enqueues "m1" twice. -/
theorem c5_amended_witness :
    addMissionToQueue exQueue1 "m1" "again" = (exQueue1, "m1") ∧
    countJobs (runAdds [("m1", "a"), ("m1", "b"), ("m2", "c")]) "m1" ≤ 1 :=
  ⟨(c5_amended_dedup exQueue1 "m1" "again" rfl).1,
   (c5_amended_dedup exQueue1 "m1" "again" rfl).2
     [("m1", "a"), ("m1", "b"), ("m2", "c")]⟩

set_option maxHeartbeats 1600000 in
/-- C4.  When every browser operation resolves (all stages succeed,
whatever the two locator counts are), `executeMission` resolves with
the mission COMPLETED; by then `rcaSummary` and `remediationProposal` —
absent beforehand (second and third conjuncts) — have been set to the
hard-coded non-empty texts; the pre-existing steps are preserved as a
prefix, at least one step has been appended, and the final appended
step is the success observation `✅ Mission completed successfully`. -/
theorem c4_success_pipeline (a b : Nat) (s : SvcState) (mid prompt : String)
    (m : Mission) (hm : mapGet s.missions mid = some m)
    (hrca : m.rcaSummary = none) (hrem : m.remediationProposal = none) :
    (executeMissionR (okBrowserEnv a b) mid prompt s).1 = Except.ok () ∧
    m.rcaSummary = none ∧ m.remediationProposal = none ∧
    ((mapGet ((executeMissionR (okBrowserEnv a b) mid prompt s).2).missions
        mid).map Mission.status) = some MissionStatus.COMPLETED ∧
    ((mapGet ((executeMissionR (okBrowserEnv a b) mid prompt s).2).missions
        mid).map Mission.rcaSummary) = some (some mockRCASummary) ∧
    mockRCASummary ≠ "" ∧
    ((mapGet ((executeMissionR (okBrowserEnv a b) mid prompt s).2).missions
        mid).map Mission.remediationProposal) = some (some mockRemediation) ∧
    mockRemediation ≠ "" ∧
    ((mapGet ((executeMissionR (okBrowserEnv a b) mid prompt s).2).missions
        mid).map (fun m2 => m2.steps.take m.steps.length)) = some m.steps ∧
    ((mapGet ((executeMissionR (okBrowserEnv a b) mid prompt s).2).missions
        mid).map (fun m2 => m.steps.length + 1 ≤ m2.steps.length)) =
      some True ∧
    ((mapGet ((executeMissionR (okBrowserEnv a b) mid prompt s).2).missions
        mid).map (fun m2 => m2.steps.getLast?.map
          (fun stp => (stp.type, stp.message, stp.screenshotPath)))) =
      some (some (MissionStepType.OBSERVATION,
        "✅ Mission completed successfully", none)) := by
  have hne1 : mockRCASummary ≠ "" := by decide
  have hne2 : mockRemediation ≠ "" := by decide
  by_cases ha : a > 0 <;> by_cases hb : b > 0 <;>
    (refine ⟨?_, hrca, hrem, ?_, ?_, hne1, ?_, hne2, ?_, ?_, ?_⟩ <;>
      simp [executeMissionR, tryBodyR, navigateToDashboardR,
        analyzeDashboardR, navigateToLogsR, performRCAR,
        proposeRemediationR, executeApprovedActionR, captureScreenshotR,
        catchHandlerR, tryCatchR, tryFinallyR, okBrowserEnv,
        M.bind_eq, M.bind, M.pure_eq, M.pure, effR_run, nextTick_run,
        updateStatusR, addStepR, setRCASummaryR, setRemediationProposalR,
        updateStatus, addStep, setRCASummary, setRemediationProposal,
        pure_run, hm, ha, hb, List.take_left, List.getLast?_concat])

/-- C4 (witness): the theorem applied to the pending fixture with both
locator counts 1. -/
theorem c4_witness :
    (executeMissionR (okBrowserEnv 1 1) "m" "p" exState0).1 = Except.ok () ∧
    exMissionPending.rcaSummary = none ∧
    exMissionPending.remediationProposal = none ∧
    ((mapGet ((executeMissionR (okBrowserEnv 1 1) "m" "p"
        exState0).2).missions "m").map Mission.status) =
      some MissionStatus.COMPLETED ∧
    ((mapGet ((executeMissionR (okBrowserEnv 1 1) "m" "p"
        exState0).2).missions "m").map Mission.rcaSummary) =
      some (some mockRCASummary) ∧
    mockRCASummary ≠ "" ∧
    ((mapGet ((executeMissionR (okBrowserEnv 1 1) "m" "p"
        exState0).2).missions "m").map Mission.remediationProposal) =
      some (some mockRemediation) ∧
    mockRemediation ≠ "" ∧
    ((mapGet ((executeMissionR (okBrowserEnv 1 1) "m" "p"
        exState0).2).missions "m").map
        (fun m2 => m2.steps.take exMissionPending.steps.length)) =
      some exMissionPending.steps ∧
    ((mapGet ((executeMissionR (okBrowserEnv 1 1) "m" "p"
        exState0).2).missions "m").map
        (fun m2 => exMissionPending.steps.length + 1 ≤ m2.steps.length)) =
      some True ∧
    ((mapGet ((executeMissionR (okBrowserEnv 1 1) "m" "p"
        exState0).2).missions "m").map (fun m2 => m2.steps.getLast?.map
          (fun stp => (stp.type, stp.message, stp.screenshotPath)))) =
      some (some (MissionStepType.OBSERVATION,
        "✅ Mission completed successfully", none)) :=
  c4_success_pipeline 1 1 exState0 "m" "p" exMissionPending rfl rfl rfl

end OpsAgent
